import Mathlib

/-!
Verification of the execution engine of the Mini_Shell_in_C repository.

The repository ships two variants of the engine: `src/src/cmd.c` (the main
variant, embedded here under its source names) and `src/unnamed/part_000`
(an earlier variant of the same file, embedded with a `_p0` suffix).  The
embedding is a shallow one: every system call whose success is decided by
the operating system (open, dup2, chdir, fork, execvp, the exit status of
the spawned program) is resolved by an explicit oracle record `World`, and
every externally visible action of the engine (opening a file, rebinding a
standard stream, saving and restoring the stream triple, setenv, chdir,
fork, waitpid, a diagnostic message) is recorded in an event trace, so that
frame and error-path properties become statements about the returned trace.
-/

namespace MiniShell

/-- The word_t handle of a redirect target or of a `cd` argument.  `wid`
stands for the address of the node, so that the pointer comparison
`s->err == s->out` of the source is `wid` equality; `str` is the string
`get_word` resolves the word to (`get_word` itself is in the missing
utility files; per the spec it is the opaque resolve-word-to-string
operation). -/
structure Word where
  wid : Nat
  str : String
deriving DecidableEq

/-- The mode an open event uses: O_RDONLY, O_WRONLY|O_CREAT|O_TRUNC, or
O_WRONLY|O_CREAT|O_APPEND. -/
inductive RMode where
  | read
  | trunc
  | append
deriving DecidableEq

/-- An event of the redirection resolver: a call of open(2) on a file in a
mode, or a successful dup2 of the opened file onto a standard stream. -/
inductive REv where
  | openE (file : String) (mode : RMode)
  | bindE (stream : Nat) (file : String)
deriving DecidableEq

/-- The oracle for everything the operating system decides: whether open(2)
succeeds on a given file name, whether dup2(2) succeeds onto a given
stream, whether chdir(2) succeeds on a given path, whether fork(2)
succeeds, whether execvp(3) succeeds, and the exit status the spawned
program terminates with when execvp succeeds. -/
structure World where
  openOk : String → Bool
  dup2Ok : Nat → Bool
  chdirOk : String → Bool
  forkOk : Bool
  execOk : Bool
  progStatus : Nat

/-- cmd.c `dup_fd`: dup2 the open file onto a standard stream.  The event
is recorded on success.  cmd.c `redirect` discards the -1 that `dup_fd`
returns on failure, so only the event list matters to the caller there. -/
def dup_fd (w : World) (stream : Nat) (file : String) : List REv :=
  if w.dup2Ok stream then [REv.bindE stream file] else []

/-- cmd.c `redirect`: open `filename` and rebind the stream(s) encoded in
`descriptor` to it.  `descriptor` 0 means stdin (read-only open); otherwise
bit 1 selects stdout and bit 2 selects stderr, the open is O_WRONLY|O_CREAT
with O_APPEND or O_TRUNC per `append`.  Returns -1 exactly when the open
fails; the results of the `dup_fd` calls are discarded, as in the source. -/
def redirect (w : World) (filename : String) (descriptor : Nat) (append : Bool) :
    Int × List REv :=
  if descriptor = 0 then
    if w.openOk filename then
      (0, REv.openE filename RMode.read :: dup_fd w 0 filename)
    else
      (-1, [REv.openE filename RMode.read])
  else
    let m := if append then RMode.append else RMode.trunc
    if w.openOk filename then
      (0, REv.openE filename m ::
        ((if descriptor &&& 1 ≠ 0 then dup_fd w 1 filename else []) ++
         (if descriptor &&& 2 ≠ 0 then dup_fd w 2 filename else [])))
    else
      (-1, [REv.openE filename m])

/-- simple_command_t, with words already resolved: `verb` is
`get_word(s->verb)`, `params` the chain of parameter words (the empty list
standing for a NULL `s->params`), `argvs` the vector `get_argv` builds,
`inW`/`outW`/`errW` the three redirect fields (`none` standing for NULL),
and `outApp`/`errApp` the IO_OUT_APPEND / IO_ERR_APPEND bits of
`s->io_flags`. -/
structure Scmd where
  verb : String
  params : List Word
  argvs : List String
  inW : Option Word
  outW : Option Word
  errW : Option Word
  outApp : Bool
  errApp : Bool
deriving DecidableEq

/-- The split (non-aliased) branch of cmd.c `apply_redirections`: redirect
stderr if `s->err` is set, then redirect stdout if `s->out` is set.  The
returned status is the variable `exit_status` of the source: the second
assignment overwrites the first, so when both are set only the stdout
stage decides the result. -/
def redirSplit (w : World) (s : Scmd) : Int × List REv :=
  let e :=
    match s.errW with
    | some ew => redirect w ew.str 2 s.errApp
    | none => (0, [])
  match s.outW with
  | some ow =>
    let o := redirect w ow.str 1 s.outApp
    (o.1, e.2 ++ o.2)
  | none => e

/-- The output/error part of cmd.c `apply_redirections`: when `s->err` and
`s->out` are both set and are the same word (pointer equality, here `wid`
equality), the one target is opened once with append 0 (truncate) and bound
to both stdout and stderr (descriptor 3); otherwise the two streams are
redirected independently. -/
def applyOutErr (w : World) (s : Scmd) : Int × List REv :=
  match s.errW, s.outW with
  | some ew, some ow =>
    if ew.wid = ow.wid then redirect w ow.str 3 false
    else redirSplit w s
  | _, _ => redirSplit w s

/-- cmd.c `apply_redirections`: the input redirection runs first and a
failure there returns -1 before the output/error stages are attempted;
otherwise the result is the status of the output/error part. -/
def apply_redirections (w : World) (s : Scmd) : Int × List REv :=
  match s.inW with
  | none => applyOutErr w s
  | some iw =>
    let r := redirect w iw.str 0 false
    if r.1 = -1 then (-1, r.2)
    else
      let rest := applyOutErr w s
      (rest.1, r.2 ++ rest.2)

/-- An action of the simple-command executor, as recorded in the trace of
one `parse_simple` call: saving the three standard streams
(`duplicate_file_descriptors`), a redirection event, restoring and closing
the saved triple (`restore_file_descriptors`), a setenv binding, a
successful chdir (the only action that changes the working directory), a
diagnostic message (perror/printf), the part_000 `parse_env_assignment`
call, a fork, and a waitpid. -/
inductive Act where
  | saveFds
  | red (e : REv)
  | restoreFds
  | setenvA (name : Option String) (value : Option String)
  | chdirA (path : String)
  | diagA (msg : String)
  | envAssignA (raw : String)
  | forkA
  | waitA
deriving DecidableEq

/-- cmd.c `shell_cd`: fails when the argument chain is NULL or has more
than one word (in both cases without attempting chdir); with exactly one
word it calls chdir and reports failure with a perror diagnostic, leaving
the working directory unchanged (no `chdirA` event) when chdir fails. -/
def shell_cd (w : World) (dir : List Word) : Bool × List Act :=
  match dir with
  | [d] =>
    if w.chdirOk d.str then (true, [Act.chdirA d.str])
    else (false, [Act.diagA "cd"])
  | _ => (false, [])

/-- part_000 `shell_cd`: with a NULL chain or more than one word it does
nothing and returns true (success); with exactly one word it behaves like
the cmd.c variant, with a perror("chdir") diagnostic on failure. -/
def shell_cd_p0 (w : World) (dir : List Word) : Bool × List Act :=
  match dir with
  | [d] =>
    if w.chdirOk d.str then (true, [Act.chdirA d.str])
    else (false, [Act.diagA "chdir"])
  | _ => (true, [])

/-- One strtok_r step with a single delimiter character: skip leading
delimiters, return none when nothing is left, otherwise the token up to the
next delimiter together with the unconsumed remainder. -/
def strtok_first (delim : Char) (l : List Char) : Option (List Char × List Char) :=
  let t := l.dropWhile (fun c => c == delim)
  match t with
  | [] => none
  | _ => some (t.takeWhile (fun c => !(c == delim)), t.dropWhile (fun c => !(c == delim)))

/-- cmd.c `parse_environment_variable`: `name` is the first "="-delimited
strtok_r token of the verb, `value` the second (none standing for a NULL
pointer); the pair is what the source passes to setenv. -/
def parse_environment_variable (command : List Char) :
    Option (List Char) × Option (List Char) :=
  match strtok_first '=' command with
  | none => (none, none)
  | some (name, rest) =>
    match strtok_first '=' rest with
    | none => (some name, none)
    | some (value, _) => (some name, some value)

/-- Modelled from the spec: `SHELL_EXIT` is defined in the header cmd.h,
which is not among the repository files.  The spec says exit/quit
"terminate the whole shell process immediately with status 0", so the
constant is modelled as 0; no claim below depends on its value. -/
def SHELL_EXIT : Int := 0

/-- What the cmd.c child does after fork on the external-command path:
execvp replaces the image on success (the child then terminates with the
program status); on failure the child prints a diagnostic and calls
exit(127).  The pair is (the exit status the parent will reap, the trace of
the child after the failed exec). -/
def child_after_fork (w : World) (command : String) : Int × List Act :=
  if w.execOk then (Int.ofNat (w.progStatus % 256), [])
  else (127, [Act.diagA ("Execution failed for " ++ command)])

/-- What the part_000 child does after fork: on exec failure it calls
perror on the command name and exits with EXIT_FAILURE, that is 1. -/
def child_after_fork_p0 (w : World) (command : String) : Int × List Act :=
  if w.execOk then (Int.ofNat (w.progStatus % 256), [])
  else (1, [Act.diagA command])

/-- The way one `parse_simple` call ends: an ordinary return with an int,
or termination of the whole shell process through exit(). -/
inductive SimpleResult where
  | ret (v : Int)
  | exited (code : Int)
deriving DecidableEq

/-- cmd.c `parse_simple`: a NULL command returns 0 with no action;
otherwise the three streams are saved, the redirections applied (a failure
there returning -1 at once, without restoring), and the verb dispatched:
exit/quit restore and terminate the shell; cd runs `shell_cd`, restores and
maps the boolean to 0/1; a verb containing "=" (the strstr test) runs
setenv on the strtok_r split and restores; otherwise the command is forked
(a fork failure restoring and returning -1, with the perror after the
restore), the parent waits, restores, and returns WEXITSTATUS of the
child. -/
def parse_simple (w : World) (sq : Option Scmd) : SimpleResult × List Act :=
  match sq with
  | none => (SimpleResult.ret 0, [])
  | some s =>
    let r := apply_redirections w s
    let acts := Act.saveFds :: r.2.map Act.red
    if r.1 = -1 then
      (SimpleResult.ret (-1), acts)
    else if s.verb = "exit" ∨ s.verb = "quit" then
      (SimpleResult.exited SHELL_EXIT, acts ++ [Act.restoreFds])
    else if s.verb = "cd" then
      let cdr := shell_cd w s.params
      (SimpleResult.ret (if cdr.1 then 0 else 1), acts ++ cdr.2 ++ [Act.restoreFds])
    else if '=' ∈ s.verb.data then
      let nv := parse_environment_variable s.verb.data
      (SimpleResult.ret 0,
        acts ++ [Act.setenvA (nv.1.map String.mk) (nv.2.map String.mk), Act.restoreFds])
    else if w.forkOk then
      let ch := child_after_fork w s.verb
      (SimpleResult.ret ch.1, acts ++ [Act.forkA, Act.waitA, Act.restoreFds])
    else
      (SimpleResult.ret (-1), acts ++ [Act.restoreFds, Act.diagA "fork"])

/-- part_000 `redirect_input`: unlike the cmd.c `redirect`, the dup2 result
is checked, so a rebind failure also returns -1. -/
def redirect_input_p0 (w : World) (filename : String) : Int × List REv :=
  if w.openOk filename then
    if w.dup2Ok 0 then (0, [REv.openE filename RMode.read, REv.bindE 0 filename])
    else (-1, [REv.openE filename RMode.read])
  else (-1, [REv.openE filename RMode.read])

/-- part_000 `redirect_output`: open for writing per the append flag, dup2
onto stdout, both failures reported. -/
def redirect_output_p0 (w : World) (filename : String) (append : Bool) : Int × List REv :=
  let m := if append then RMode.append else RMode.trunc
  if w.openOk filename then
    if w.dup2Ok 1 then (0, [REv.openE filename m, REv.bindE 1 filename])
    else (-1, [REv.openE filename m])
  else (-1, [REv.openE filename m])

/-- part_000 `redirect_stderr`: open for writing per the append flag, dup2
onto stderr, both failures reported. -/
def redirect_stderr_p0 (w : World) (filename : String) (append : Bool) : Int × List REv :=
  let m := if append then RMode.append else RMode.trunc
  if w.openOk filename then
    if w.dup2Ok 2 then (0, [REv.openE filename m, REv.bindE 2 filename])
    else (-1, [REv.openE filename m])
  else (-1, [REv.openE filename m])

/-- part_000 `redirect_output_stderr`: one open in truncate mode, then dup2
onto stdout and onto stderr. -/
def redirect_output_stderr_p0 (w : World) (filename : String) : Int × List REv :=
  if w.openOk filename then
    if w.dup2Ok 1 then
      if w.dup2Ok 2 then
        (0, [REv.openE filename RMode.trunc, REv.bindE 1 filename, REv.bindE 2 filename])
      else (-1, [REv.openE filename RMode.trunc, REv.bindE 1 filename])
    else (-1, [REv.openE filename RMode.trunc])
  else (-1, [REv.openE filename RMode.trunc])

/-- The split branch of part_000 `apply_redirections`, with the same
overwrite of `exit_status` by the stdout stage as in cmd.c. -/
def redirSplit_p0 (w : World) (s : Scmd) : Int × List REv :=
  let e :=
    match s.errW with
    | some ew => redirect_stderr_p0 w ew.str s.errApp
    | none => (0, [])
  match s.outW with
  | some ow =>
    let o := redirect_output_p0 w ow.str s.outApp
    (o.1, e.2 ++ o.2)
  | none => e

/-- The output/error part of part_000 `apply_redirections`.  In the aliased
branch the source declares a fresh local `int exit_status` that shadows the
outer one, so the result of `redirect_output_stderr` is discarded and the
branch always yields status 0; only the events remain. -/
def applyOutErr_p0 (w : World) (s : Scmd) : Int × List REv :=
  match s.errW, s.outW with
  | some ew, some ow =>
    if ew.wid = ow.wid then (0, (redirect_output_stderr_p0 w ow.str).2)
    else redirSplit_p0 w s
  | _, _ => redirSplit_p0 w s

/-- part_000 `apply_redirections`: input redirection first with a
short-circuit on failure, then the output/error part. -/
def apply_redirections_p0 (w : World) (s : Scmd) : Int × List REv :=
  match s.inW with
  | none => applyOutErr_p0 w s
  | some iw =>
    let r := redirect_input_p0 w iw.str
    if r.1 = -1 then (-1, r.2)
    else
      let rest := applyOutErr_p0 w s
      (rest.1, r.2 ++ rest.2)

/-- part_000 `parse_simple`.  Differences from the cmd.c variant: no NULL
check; exit/quit terminates with exit(0) without restoring; the
environment-assignment path calls `parse_env_assignment` (a function of the
repository that is not among its files, recorded abstractly as an
`envAssignA` event) and returns 0 without restoring; a fork failure returns
-1 without restoring; the child on exec failure exits with 1. -/
def parse_simple_p0 (w : World) (s : Scmd) : SimpleResult × List Act :=
  let r := apply_redirections_p0 w s
  let acts := Act.saveFds :: r.2.map Act.red
  if r.1 = -1 then
    (SimpleResult.ret (-1), acts)
  else if s.verb = "exit" ∨ s.verb = "quit" then
    (SimpleResult.exited 0, acts)
  else if s.verb = "cd" then
    let cdr := shell_cd_p0 w s.params
    (SimpleResult.ret (if cdr.1 then 0 else 1), acts ++ cdr.2 ++ [Act.restoreFds])
  else if '=' ∈ s.verb.data then
    (SimpleResult.ret 0, acts ++ [Act.envAssignA s.verb])
  else if w.forkOk then
    let ch := child_after_fork_p0 w s.verb
    (SimpleResult.ret ch.1, acts ++ [Act.forkA, Act.waitA, Act.restoreFds])
  else
    (SimpleResult.ret (-1), acts ++ [Act.diagA "fork"])

/-- The fork oracle of one orchestrator call: whether the first and the
second fork succeed. -/
structure PWorld where
  fork1Ok : Bool
  fork2Ok : Bool
deriving DecidableEq

/-- What one orchestrator call did: its boolean result, the children it
forked and the children it reaped with waitpid, each child named by its
number.  waitpid returns only once the child has terminated, so a child
listed in `waited` has terminated before the orchestrator returned. -/
structure OrchResult where
  ok : Bool
  forked : List Nat
  waited : List Nat
deriving DecidableEq

/-- cmd.c `run_in_parallel`: fork both children (each evaluating one
subtree), report a fork failure as false, and on success call waitpid on
both children before returning true. -/
def run_in_parallel (w : PWorld) : OrchResult :=
  if w.fork1Ok then
    if w.fork2Ok then { ok := true, forked := [1, 2], waited := [1, 2] }
    else { ok := false, forked := [1], waited := [] }
  else { ok := false, forked := [], waited := [] }

/-- part_000 `run_in_parallel`: fork both children and return true at once,
without waiting for either (the source comment says so in as many words). -/
def run_in_parallel_p0 (w : PWorld) : OrchResult :=
  if w.fork1Ok then
    if w.fork2Ok then { ok := true, forked := [1, 2], waited := [] }
    else { ok := false, forked := [1], waited := [] }
  else { ok := false, forked := [], waited := [] }

/-- The boolean `run_on_pipe` (identical in both variants) computes on the
normal path after waiting for both children: WEXITSTATUS(status2) is the
low byte of the right-child exit value, and the function returns false
exactly when it is nonzero.  The left-child status `st1` is reaped into
`status1` and never read. -/
def run_on_pipe (st1 st2 : Int) : Bool :=
  st2 % 256 == 0

/-- The command tree seen by `parse_command`: a leaf carries the number of
its node and the int its `parse_simple` call returns, the five operators
are those of the source.  (Word-level detail of the leaves lives in `Scmd`;
the evaluator only consumes the status.) -/
inductive Cmd where
  | simple (n : Nat) (st : Int)
  | seq (l r : Cmd)
  | par (l r : Cmd)
  | condNZ (l r : Cmd)
  | condZ (l r : Cmd)
  | pipe (l r : Cmd)
deriving DecidableEq

/-- The recursion of cmd.c `parse_command` on a non-NULL tree, on the
normal path (pipe creation and forks succeeding; the oracle-level fork
failures live in `run_in_parallel` and `run_on_pipe` above).  The result is
the returned exit status together with the list of leaf numbers evaluated,
in order.  OP_SEQUENTIAL evaluates both sides and keeps the right status;
the conditionals evaluate the right side under the guard on the left
status; OP_PARALLEL maps the `run_in_parallel` boolean to 0/1; OP_PIPE
feeds the two statuses (each masked to its low byte by exit/WEXITSTATUS)
to `run_on_pipe` and maps the boolean to 0/1. -/
def evalT : Cmd → Int × List Nat
  | Cmd.simple n st => (st, [n])
  | Cmd.seq l r =>
    let a := evalT l
    let b := evalT r
    (b.1, a.2 ++ b.2)
  | Cmd.condNZ l r =>
    let a := evalT l
    if a.1 ≠ 0 then
      let b := evalT r
      (b.1, a.2 ++ b.2)
    else a
  | Cmd.condZ l r =>
    let a := evalT l
    if a.1 = 0 then
      let b := evalT r
      (b.1, a.2 ++ b.2)
    else a
  | Cmd.par l r =>
    let a := evalT l
    let b := evalT r
    (if (run_in_parallel { fork1Ok := true, fork2Ok := true }).ok then 0 else 1,
      a.2 ++ b.2)
  | Cmd.pipe l r =>
    let a := evalT l
    let b := evalT r
    (if run_on_pipe a.1 b.1 then 0 else 1, a.2 ++ b.2)

/-- cmd.c `parse_command` at the top: a NULL tree returns exit status 0
without evaluating anything. -/
def parse_command : Option Cmd → Int × List Nat
  | none => (0, [])
  | some c => evalT c

/-- The all-permissive oracle: every open, dup2 and chdir succeeds, fork
and exec succeed, the program exits 0. -/
def wAllOk : World :=
  { openOk := fun _ => true, dup2Ok := fun _ => true, chdirOk := fun _ => true,
    forkOk := true, execOk := true, progStatus := 0 }

/-- The oracle in which execvp fails (command not found) and everything
else succeeds. -/
def wExecFail : World := { wAllOk with execOk := false }

/-- The oracle in which every open fails. -/
def wNoOpen : World := { wAllOk with openOk := fun _ => false }

/-- The oracle in which only the file named "E" cannot be opened. -/
def wErrFail : World := { wAllOk with openOk := fun f => !(f == "E") }

/-- A `cat` command reading its input from missing.txt, with no other
redirections. -/
def sInFail : Scmd :=
  { verb := "cat", params := [], argvs := ["cat"],
    inW := some { wid := 1, str := "missing.txt" }, outW := none, errW := none,
    outApp := false, errApp := false }

/-- A plain external command with no redirections. -/
def sExtern : Scmd :=
  { verb := "doesnotexist123", params := [], argvs := ["doesnotexist123"],
    inW := none, outW := none, errW := none, outApp := false, errApp := false }

/-- A `cd` command with the given parameter chain and no redirections. -/
def cdCmd (p : List Word) : Scmd :=
  { verb := "cd", params := p, argvs := ["cd"],
    inW := none, outW := none, errW := none, outApp := false, errApp := false }

/-- A command with stderr redirected to the file "E" and stdout to the
distinct file "O" (distinct words, distinct names). -/
def sErrOut : Scmd :=
  { verb := "prog", params := [], argvs := ["prog"], inW := none,
    outW := some { wid := 2, str := "O" }, errW := some { wid := 1, str := "E" },
    outApp := false, errApp := false }

/-- A verb that is an environment assignment whose value itself contains a
further "=": A=B=C. -/
def sEnvAssign : Scmd :=
  { verb := "A=B=C", params := [], argvs := [], inW := none, outW := none,
    errW := none, outApp := false, errApp := false }

/-- A command whose stdout and stderr redirects are the same word (equal
`wid`), with both per-stream append flags set. -/
def sMerged : Scmd :=
  { verb := "prog", params := [], argvs := ["prog"], inW := none,
    outW := some { wid := 7, str := "both.txt" },
    errW := some { wid := 7, str := "both.txt" },
    outApp := true, errApp := true }

/-- A command whose stdout and stderr redirects are distinct words that
happen to spell the same file name. -/
def sSameString : Scmd :=
  { verb := "prog", params := [], argvs := ["prog"], inW := none,
    outW := some { wid := 8, str := "f.txt" },
    errW := some { wid := 9, str := "f.txt" },
    outApp := false, errApp := false }

/-- Claim C10: in the src/src/cmd.c variant, `parse_command` on a NULL tree
and `parse_simple` on a NULL simple command both return exit status 0 with
an empty action trace (no side effect). -/
theorem C10_null_nodes :
    parse_command none = (0, []) ∧
    (∀ w : World, parse_simple w none = (SimpleResult.ret 0, [])) :=
  ⟨rfl, fun _ => rfl⟩

/-- Claim C9: for every ConditionalNonZero node the result is the right
status, with the right subtree evaluated (its leaf trace appended), exactly
when the left status is nonzero, and otherwise the left result unchanged;
for every ConditionalZero node the same with the guard "left status is
zero". -/
theorem C9_conditionals (l r : Cmd) :
    evalT (Cmd.condNZ l r) =
      (if (evalT l).1 ≠ 0 then ((evalT r).1, (evalT l).2 ++ (evalT r).2) else evalT l) ∧
    evalT (Cmd.condZ l r) =
      (if (evalT l).1 = 0 then ((evalT r).1, (evalT l).2 ++ (evalT r).2) else evalT l) :=
  ⟨rfl, rfl⟩

/-- Claim C1 counterexample: a Pipe node whose right branch terminates with
exit status 2 is reported as status 1, not 2: the evaluator maps the
`run_on_pipe` boolean to 0/1 instead of returning the right status. -/
theorem C1_pipe_counterexample :
    evalT (Cmd.pipe (Cmd.simple 0 0) (Cmd.simple 1 2)) = (1, [0, 1]) ∧
    (evalT (Cmd.simple 1 2)).1 = 2 ∧ (1 : Int) ≠ 2 := by
  refine ⟨by decide, rfl, by decide⟩

/-- Claim C1 amended: the status of a Pipe node is 0 when the right branch
low-byte exit status is 0 and 1 otherwise, and it does not depend on the
left branch at all (the left status is discarded). -/
theorem C1_pipe_status (l l2 r : Cmd) :
    (evalT (Cmd.pipe l r)).1 = (if (evalT r).1 % 256 = 0 then 0 else 1) ∧
    (evalT (Cmd.pipe l r)).1 = (evalT (Cmd.pipe l2 r)).1 := by
  constructor
  · simp [evalT, run_on_pipe]
  · simp [evalT, run_on_pipe]

/-- Claim C3 counterexample: the part_000 `run_in_parallel` reports success
with both children forked and neither child waited for, so it returns while
both branches may still be running. -/
theorem C3_parallel_counterexample :
    (run_in_parallel_p0 { fork1Ok := true, fork2Ok := true }).ok = true ∧
    (run_in_parallel_p0 { fork1Ok := true, fork2Ok := true }).forked = [1, 2] ∧
    (run_in_parallel_p0 { fork1Ok := true, fork2Ok := true }).waited = [] :=
  ⟨rfl, rfl, rfl⟩

/-- Claim C3 amended: when both forks succeed, the cmd.c `run_in_parallel`
reaps both children with waitpid before returning success, while the
part_000 variant returns success with an empty waited list (fire and
forget). -/
theorem C3_parallel_wait (w : PWorld) (h1 : w.fork1Ok = true) (h2 : w.fork2Ok = true) :
    run_in_parallel w = { ok := true, forked := [1, 2], waited := [1, 2] } ∧
    run_in_parallel_p0 w = { ok := true, forked := [1, 2], waited := [] } := by
  simp [run_in_parallel, run_in_parallel_p0, h1, h2]

/-- Claim C3 witness: the amended statement at the concrete oracle in which
both forks succeed. -/
theorem C3_parallel_wait_witness :
    run_in_parallel { fork1Ok := true, fork2Ok := true } =
      { ok := true, forked := [1, 2], waited := [1, 2] } ∧
    run_in_parallel_p0 { fork1Ok := true, fork2Ok := true } =
      { ok := true, forked := [1, 2], waited := [] } :=
  C3_parallel_wait { fork1Ok := true, fork2Ok := true } rfl rfl

/-- Claim C2: the code violates the claim.  On the redirection-failure path
(here: the input file cannot be opened) cmd.c `parse_simple` returns -1
with the saved streams never restored: the trace holds the save action but
no restore action. -/
theorem C2_no_restore_on_redirection_failure :
    parse_simple wNoOpen (some sInFail) =
      (SimpleResult.ret (-1),
        [Act.saveFds, Act.red (REv.openE "missing.txt" RMode.read)]) ∧
    Act.saveFds ∈ (parse_simple wNoOpen (some sInFail)).2 ∧
    Act.restoreFds ∉ (parse_simple wNoOpen (some sInFail)).2 := by
  refine ⟨by decide, by decide, by decide⟩

/-- Claim C5 counterexample: in the part_000 variant, `cd` with zero
arguments is a no-op success: `shell_cd` returns true without attempting
chdir and the executor reports status 0, where the claim requires a
non-success. -/
theorem C5_cd_counterexample :
    (parse_simple_p0 wAllOk (cdCmd [])).1 = SimpleResult.ret 0 ∧
    shell_cd_p0 wAllOk [] = (true, []) :=
  ⟨rfl, rfl⟩

/-- Claim C6 counterexample: with stderr redirected to the unopenable file
"E" and stdout to the openable, distinct file "O", cmd.c
`apply_redirections` attempts and fails the stderr open, then attempts the
stdout open, and returns 0 — the stderr failure is silently swallowed. -/
theorem C6_swallowed_counterexample :
    apply_redirections wErrFail sErrOut =
      (0, [REv.openE "E" RMode.trunc, REv.openE "O" RMode.trunc, REv.bindE 1 "O"]) ∧
    wErrFail.openOk "E" = false := by
  refine ⟨by decide, rfl⟩

/-- Claim C7 counterexample: for the verb A=B=C the source binds the value
"B" (the second strtok_r token), not "B=C" (everything after the first =)
as the claim states. -/
theorem C7_env_counterexample :
    parse_environment_variable ("A=B=C".data) = (some ("A".data), some ("B".data)) ∧
    "B".data ≠ "B=C".data := by
  refine ⟨by decide, by decide⟩

/-- Claim C4 counterexample: in the part_000 variant the child exits with
EXIT_FAILURE when execvp fails, so the executor reports status 1, not the
reserved 127. -/
theorem C4_exec_counterexample :
    (parse_simple_p0 wExecFail sExtern).1 = SimpleResult.ret 1 ∧
    SimpleResult.ret (1 : Int) ≠ SimpleResult.ret 127 := by
  refine ⟨rfl, by decide⟩

/-- Claim C4 amended: on the external-command path with a failing exec, the
cmd.c executor returns 127 (the child prints a diagnostic and exits 127,
the parent reaps it, restores the streams and passes the status up), while
the part_000 executor returns 1, because its child exits with
EXIT_FAILURE. -/
theorem C4_exec_failure (w : World) (s : Scmd)
    (hred : (apply_redirections w s).1 ≠ -1)
    (hredp : (apply_redirections_p0 w s).1 ≠ -1)
    (hx : s.verb ≠ "exit") (hq : s.verb ≠ "quit") (hc : s.verb ≠ "cd")
    (he : '=' ∉ s.verb.data) (hf : w.forkOk = true) (hexec : w.execOk = false) :
    (parse_simple w (some s)).1 = SimpleResult.ret 127 ∧
    (child_after_fork w s.verb).2 = [Act.diagA ("Execution failed for " ++ s.verb)] ∧
    Act.restoreFds ∈ (parse_simple w (some s)).2 ∧
    (parse_simple_p0 w s).1 = SimpleResult.ret 1 := by
  refine ⟨?_, ?_, ?_, ?_⟩ <;>
    simp [parse_simple, parse_simple_p0, child_after_fork, child_after_fork_p0,
      hred, hredp, hx, hq, hc, he, hf, hexec]

/-- Claim C4 witness: the amended statement at a concrete all-succeeding
oracle whose exec fails, on a plain external command. -/
theorem C4_exec_failure_witness :
    (parse_simple wExecFail (some sExtern)).1 = SimpleResult.ret 127 ∧
    (child_after_fork wExecFail sExtern.verb).2 =
      [Act.diagA ("Execution failed for " ++ sExtern.verb)] ∧
    Act.restoreFds ∈ (parse_simple wExecFail (some sExtern)).2 ∧
    (parse_simple_p0 wExecFail sExtern).1 = SimpleResult.ret 1 :=
  C4_exec_failure wExecFail sExtern (by decide) (by decide) (by decide) (by decide)
    (by decide) (by decide) rfl rfl

/-- The cd path of cmd.c `parse_simple` on a redirection-free cd node:
save, run `shell_cd`, restore, map the boolean to 0/1. -/
theorem parse_simple_cd (w : World) (p : List Word) :
    parse_simple w (some (cdCmd p)) =
      (SimpleResult.ret (if (shell_cd w p).1 then 0 else 1),
        Act.saveFds :: ((shell_cd w p).2 ++ [Act.restoreFds])) := rfl

/-- Claim C5 amended: in cmd.c, `cd` with zero or with more than one
argument fails (status 1) without attempting chdir; with exactly one
argument it succeeds (status 0, with the chdir action) exactly when chdir
succeeds, and on chdir failure it reports the error and performs no
working-directory change.  In part_000, `cd` with zero or with more than
one argument is a no-op success. -/
theorem C5_cd_contract (w : World) (d d2 : Word) (rest : List Word) :
    shell_cd w [] = (false, []) ∧
    shell_cd w (d :: d2 :: rest) = (false, []) ∧
    (w.chdirOk d.str = true → shell_cd w [d] = (true, [Act.chdirA d.str])) ∧
    (w.chdirOk d.str = false → shell_cd w [d] = (false, [Act.diagA "cd"])) ∧
    (parse_simple w (some (cdCmd []))).1 = SimpleResult.ret 1 ∧
    (parse_simple w (some (cdCmd (d :: d2 :: rest)))).1 = SimpleResult.ret 1 ∧
    (w.chdirOk d.str = true →
      (parse_simple w (some (cdCmd [d]))).1 = SimpleResult.ret 0) ∧
    (w.chdirOk d.str = false →
      (parse_simple w (some (cdCmd [d]))).1 = SimpleResult.ret 1 ∧
        Act.chdirA d.str ∉ (parse_simple w (some (cdCmd [d]))).2) ∧
    shell_cd_p0 w [] = (true, []) ∧
    shell_cd_p0 w (d :: d2 :: rest) = (true, []) := by
  refine ⟨rfl, rfl, ?_, ?_, ?_, ?_, ?_, ?_, rfl, rfl⟩
  · intro h; simp [shell_cd, h]
  · intro h; simp [shell_cd, h]
  · rw [parse_simple_cd]; simp [shell_cd]
  · rw [parse_simple_cd]; simp [shell_cd]
  · intro h; rw [parse_simple_cd]; simp [shell_cd, h]
  · intro h
    constructor
    · rw [parse_simple_cd]; simp [shell_cd, h]
    · rw [parse_simple_cd]; simp [shell_cd, h]

/-- Claim C5 witness: the amended statement at concrete words and the
all-permissive oracle. -/
theorem C5_cd_contract_witness :
    shell_cd wAllOk [] = (false, []) ∧
    shell_cd wAllOk [{ wid := 3, str := "/tmp" }, { wid := 4, str := "x" }] =
      (false, []) ∧
    (wAllOk.chdirOk "/tmp" = true →
      shell_cd wAllOk [{ wid := 3, str := "/tmp" }] = (true, [Act.chdirA "/tmp"])) ∧
    (wAllOk.chdirOk "/tmp" = false →
      shell_cd wAllOk [{ wid := 3, str := "/tmp" }] = (false, [Act.diagA "cd"])) ∧
    (parse_simple wAllOk (some (cdCmd []))).1 = SimpleResult.ret 1 ∧
    (parse_simple wAllOk
      (some (cdCmd [{ wid := 3, str := "/tmp" }, { wid := 4, str := "x" }]))).1 =
      SimpleResult.ret 1 ∧
    (wAllOk.chdirOk "/tmp" = true →
      (parse_simple wAllOk (some (cdCmd [{ wid := 3, str := "/tmp" }]))).1 =
        SimpleResult.ret 0) ∧
    (wAllOk.chdirOk "/tmp" = false →
      (parse_simple wAllOk (some (cdCmd [{ wid := 3, str := "/tmp" }]))).1 =
        SimpleResult.ret 1 ∧
        Act.chdirA "/tmp" ∉
          (parse_simple wAllOk (some (cdCmd [{ wid := 3, str := "/tmp" }]))).2) ∧
    shell_cd_p0 wAllOk [] = (true, []) ∧
    shell_cd_p0 wAllOk [{ wid := 3, str := "/tmp" }, { wid := 4, str := "x" }] =
      (true, []) :=
  C5_cd_contract wAllOk { wid := 3, str := "/tmp" } { wid := 4, str := "x" } []

/-- Claim C6 amended: an input-open failure short-circuits the resolver,
which returns -1 with only the input open attempted; when the input stage
succeeds its events are kept in front of whatever the output/error stages
do (no rollback) and the final status is the output/error status; but in
the split case an error-stream open failure followed by an output redirect
whose open succeeds yields overall status 0 (the failure is overwritten),
and the returned status never depends on the dup2 oracle (rebind failures
are not reported). -/
theorem C6_redirection_errors (w : World) (s : Scmd) (iw ew ow : Word) :
    (s.inW = some iw → w.openOk iw.str = false →
      apply_redirections w s = (-1, [REv.openE iw.str RMode.read])) ∧
    (s.inW = some iw → w.openOk iw.str = true →
      apply_redirections w s =
        ((applyOutErr w s).1,
          (REv.openE iw.str RMode.read :: dup_fd w 0 iw.str) ++ (applyOutErr w s).2)) ∧
    (s.inW = none → s.errW = some ew → s.outW = some ow → ew.wid ≠ ow.wid →
      w.openOk ew.str = false → w.openOk ow.str = true →
      (apply_redirections w s).1 = 0) ∧
    (∀ w2 : World, w.openOk = w2.openOk →
      ∀ f d ap, (redirect w f d ap).1 = (redirect w2 f d ap).1) := by
  refine ⟨?_, ?_, ?_, ?_⟩
  · intro h1 h2
    simp [apply_redirections, h1, redirect, h2]
  · intro h1 h2
    simp [apply_redirections, h1, redirect, h2]
  · intro h0 h1 h2 h3 h4 h5
    simp [apply_redirections, h0, applyOutErr, h1, h2, h3, redirSplit, redirect, h4, h5]
  · intro w2 hw f d ap
    by_cases hd : d = 0 <;> by_cases ho : w.openOk f <;>
      simp [redirect, hd, ho, ← hw]

/-- Claim C8: when the stdout and stderr redirects of a Simple node are the
same word — same `wid`, the pointer equality of the source — the resolver
opens that one target exactly once, in truncate mode regardless of the two
per-stream append flags, and binds it to both stdout and stderr; when the
two words are distinct (even when they spell the same file name) the merged
path is not taken: two opens occur, each honouring its own append flag. -/
theorem C8_merged_redirect (w : World) (s : Scmd) (ew ow : Word)
    (he : s.errW = some ew) (ho : s.outW = some ow) :
    (ew.wid = ow.wid → s.inW = none → w.openOk ow.str = true →
      w.dup2Ok 1 = true → w.dup2Ok 2 = true →
      apply_redirections w s =
        (0, [REv.openE ow.str RMode.trunc, REv.bindE 1 ow.str, REv.bindE 2 ow.str])) ∧
    (ew.wid ≠ ow.wid → s.inW = none →
      w.openOk ew.str = true → w.openOk ow.str = true →
      w.dup2Ok 1 = true → w.dup2Ok 2 = true →
      apply_redirections w s =
        (0, [REv.openE ew.str (if s.errApp then RMode.append else RMode.trunc),
             REv.bindE 2 ew.str,
             REv.openE ow.str (if s.outApp then RMode.append else RMode.trunc),
             REv.bindE 1 ow.str])) := by
  constructor
  · intro hm h0 hop h1 h2
    simp [apply_redirections, h0, applyOutErr, he, ho, hm, redirect, dup_fd, hop, h1, h2]
  · intro hm h0 hoe hop h1 h2
    simp [apply_redirections, h0, applyOutErr, he, ho, hm, redirSplit, redirect,
      dup_fd, hoe, hop, h1, h2]

/-- Claim C8 witness: the merged case at a concrete node with both append
flags set (still opened once, truncating), and the distinct-words case at a
concrete node whose two targets spell the same file name (two opens). -/
theorem C8_merged_redirect_witness :
    apply_redirections wAllOk sMerged =
      (0, [REv.openE "both.txt" RMode.trunc, REv.bindE 1 "both.txt",
           REv.bindE 2 "both.txt"]) ∧
    apply_redirections wAllOk sSameString =
      (0, [REv.openE "f.txt" RMode.trunc, REv.bindE 2 "f.txt",
           REv.openE "f.txt" RMode.trunc, REv.bindE 1 "f.txt"]) :=
  ⟨(C8_merged_redirect wAllOk sMerged { wid := 7, str := "both.txt" }
      { wid := 7, str := "both.txt" } rfl rfl).1 rfl rfl rfl rfl rfl,
   (C8_merged_redirect wAllOk sSameString { wid := 9, str := "f.txt" }
      { wid := 8, str := "f.txt" } rfl rfl).2 (by decide) rfl rfl rfl rfl rfl⟩

/-- takeWhile over an append whose left part satisfies the predicate
throughout. -/
theorem takeWhile_append_all {α : Type} (p : α → Bool) (a l : List α)
    (h : ∀ x ∈ a, p x = true) : (a ++ l).takeWhile p = a ++ l.takeWhile p := by
  induction a with
  | nil => simp
  | cons x xs ih =>
    simp [List.takeWhile_cons, h x (by simp), ih (fun y hy => h y (by simp [hy]))]

/-- dropWhile over an append whose left part satisfies the predicate
throughout. -/
theorem dropWhile_append_all {α : Type} (p : α → Bool) (a l : List α)
    (h : ∀ x ∈ a, p x = true) : (a ++ l).dropWhile p = l.dropWhile p := by
  induction a with
  | nil => simp
  | cons x xs ih =>
    simp [List.dropWhile_cons, h x (by simp), ih (fun y hy => h y (by simp [hy]))]

/-- What the two strtok_r calls of `parse_environment_variable` produce on
a verb of shape a=b=c with nonempty, "="-free a and b: the name is a and
the value is b — the text between the first and the second "=" — not
b=c. -/
theorem parse_environment_variable_split (a b c : List Char)
    (ha : a ≠ []) (hb : b ≠ [])
    (haz : ∀ ch ∈ a, (ch == '=') = false) (hbz : ∀ ch ∈ b, (ch == '=') = false) :
    parse_environment_variable (a ++ '=' :: (b ++ '=' :: c)) = (some a, some b) := by
  obtain ⟨x, a2, rfl⟩ : ∃ x a2, a = x :: a2 := by
    cases a with
    | nil => exact absurd rfl ha
    | cons x a2 => exact ⟨x, a2, rfl⟩
  obtain ⟨y, b2, rfl⟩ : ∃ y b2, b = y :: b2 := by
    cases b with
    | nil => exact absurd rfl hb
    | cons y b2 => exact ⟨y, b2, rfl⟩
  have hqa : ∀ ch ∈ x :: a2, (fun c2 => !(c2 == '=')) ch = true := by
    intro ch hch; simp [haz ch hch]
  have hqb : ∀ ch ∈ y :: b2, (fun c2 => !(c2 == '=')) ch = true := by
    intro ch hch; simp [hbz ch hch]
  have e0 : (x :: a2) ++ '=' :: ((y :: b2) ++ '=' :: c) =
      x :: (a2 ++ '=' :: y :: (b2 ++ '=' :: c)) := by simp
  have hA : (x :: (a2 ++ '=' :: y :: (b2 ++ '=' :: c))).dropWhile
      (fun c2 => c2 == '=') = x :: (a2 ++ '=' :: y :: (b2 ++ '=' :: c)) := by
    simp [List.dropWhile_cons, haz x (by simp)]
  have hB : (x :: (a2 ++ '=' :: y :: (b2 ++ '=' :: c))).takeWhile
      (fun c2 => !(c2 == '=')) = x :: a2 := by
    have h2 := takeWhile_append_all (fun c2 => !(c2 == '=')) (x :: a2)
      ('=' :: ((y :: b2) ++ '=' :: c)) hqa
    simpa using h2
  have hC : (x :: (a2 ++ '=' :: y :: (b2 ++ '=' :: c))).dropWhile
      (fun c2 => !(c2 == '=')) = '=' :: y :: (b2 ++ '=' :: c) := by
    have h2 := dropWhile_append_all (fun c2 => !(c2 == '=')) (x :: a2)
      ('=' :: ((y :: b2) ++ '=' :: c)) hqa
    simpa using h2
  have s1 : strtok_first '=' (x :: (a2 ++ '=' :: y :: (b2 ++ '=' :: c))) =
      some (x :: a2, '=' :: y :: (b2 ++ '=' :: c)) := by
    simp [strtok_first, hA, hB, hC]
  have hD : ('=' :: y :: (b2 ++ '=' :: c)).dropWhile (fun c2 => c2 == '=') =
      y :: (b2 ++ '=' :: c) := by
    simp [List.dropWhile_cons, hbz y (by simp)]
  have hE : (y :: (b2 ++ '=' :: c)).takeWhile (fun c2 => !(c2 == '=')) = y :: b2 := by
    have h2 := takeWhile_append_all (fun c2 => !(c2 == '=')) (y :: b2) ('=' :: c) hqb
    simpa using h2
  have hF : (y :: (b2 ++ '=' :: c)).dropWhile (fun c2 => !(c2 == '=')) = '=' :: c := by
    have h2 := dropWhile_append_all (fun c2 => !(c2 == '=')) (y :: b2) ('=' :: c) hqb
    simpa using h2
  have s2 : strtok_first '=' ('=' :: y :: (b2 ++ '=' :: c)) =
      some (y :: b2, '=' :: c) := by
    simp [strtok_first, hD, hE, hF]
  rw [e0]
  simp [parse_environment_variable, s1, s2]

/-- Claim C7 amended: a verb of shape name=value=tail is split by strtok_r
into the name and the token between the first and the second "=" (the tail
after a further "=" is dropped, unlike the everything-after-the-first-"="
of the claim); the executor records the setenv binding of that pair and
returns success 0. -/
theorem C7_env_assignment (w : World) (s : Scmd) (a b c : List Char)
    (ha : a ≠ []) (hb : b ≠ [])
    (haz : ∀ ch ∈ a, (ch == '=') = false) (hbz : ∀ ch ∈ b, (ch == '=') = false)
    (hverb : s.verb.data = a ++ '=' :: (b ++ '=' :: c))
    (hred : (apply_redirections w s).1 ≠ -1) :
    parse_environment_variable s.verb.data = (some a, some b) ∧
    (parse_simple w (some s)).1 = SimpleResult.ret 0 ∧
    Act.setenvA (some (String.mk a)) (some (String.mk b)) ∈
      (parse_simple w (some s)).2 := by
  have hpev : parse_environment_variable s.verb.data = (some a, some b) := by
    rw [hverb]; exact parse_environment_variable_split a b c ha hb haz hbz
  have hmem : '=' ∈ s.verb.data := by rw [hverb]; simp
  have hx : ¬(s.verb = "exit") := by
    intro h; rw [h] at hmem; revert hmem; decide
  have hq : ¬(s.verb = "quit") := by
    intro h; rw [h] at hmem; revert hmem; decide
  have hc : ¬(s.verb = "cd") := by
    intro h; rw [h] at hmem; revert hmem; decide
  refine ⟨hpev, ?_, ?_⟩ <;>
    simp [parse_simple, hred, hx, hq, hc, hmem, hpev]

/-- Claim C7 witness: the amended statement on the concrete verb A=B=C with
the all-permissive oracle. -/
theorem C7_env_assignment_witness :
    parse_environment_variable sEnvAssign.verb.data =
      (some ("A".data), some ("B".data)) ∧
    (parse_simple wAllOk (some sEnvAssign)).1 = SimpleResult.ret 0 ∧
    Act.setenvA (some (String.mk "A".data)) (some (String.mk "B".data)) ∈
      (parse_simple wAllOk (some sEnvAssign)).2 :=
  C7_env_assignment wAllOk sEnvAssign "A".data "B".data "C".data (by decide)
    (by decide) (by decide) (by decide) (by decide) (by decide)

end MiniShell
